import Mathlib

/-!
Verification development for the Safe vault program (Rust sources:
src/state.rs, src/instruction.rs, src/processor.rs, src/lib.rs).

Modelling conventions:
* Bytes are `Nat` (well-formed inputs have every byte < 256); byte buffers
  are `List Nat`.  Solana `Pubkey`s are 32-byte buffers.
* `u64` values are `Nat` with explicit bounds against `u64Max = 2^64 - 1`;
  Rust `checked_add`/`checked_sub` become explicit comparisons.
* The `solana_program::program_pack::Pack` trait methods used by the
  processor (`unpack`, `unpack_unchecked`, `pack`) are modelled with their
  SDK semantics: a length check against `LEN` (`InvalidAccountData` on
  mismatch), and `unpack` additionally requires `is_initialized`
  (`UninitializedAccount` otherwise).
* `Pubkey::find_program_address` is an external one-way derivation
  primitive; the processor functions take it as an abstract function
  argument `fpa : List (List Nat) → List Nat → List Nat × Nat`
  (seeds, program id ↦ derived address, bump).
* The SPL-token transfer CPI is external; its outcome is an explicit
  argument `transferResult : Option ProgramError` (`none` = success).
* IMPORTANT FIDELITY NOTE: `processor.rs` reads and writes
  `vault.total_deposits`, but the `Vault` struct in `state.rs` has no such
  field (the crate does not compile as written), and `Vault`'s 97-byte
  layout persists only `is_initialized`, `owner`, `token_mint`,
  `vault_token_account`.  The processor models below therefore take the
  in-memory value of `total_deposits` as an explicit unconstrained
  argument `totalDeposits : Nat`; the codec (faithful to `state.rs`)
  neither stores nor recovers it.
-/

/-- Maximum value of a Rust `u64`. -/
def u64Max : Nat := 2 ^ 64 - 1

/-- Little-endian 8-byte encoding of a `u64` value, as in
`u64::to_le_bytes` (state.rs, `deposited_amount` field). -/
def toLEBytes8 (n : Nat) : List Nat :=
  (List.range 8).map (fun i => n / 256 ^ i % 256)

/-- Little-endian decoding of a byte list, as in `u64::from_le_bytes`
applied to an 8-byte slice. -/
def fromLEBytes (l : List Nat) : Nat :=
  l.foldr (fun b acc => b + 256 * acc) 0

/-- ASCII bytes of the seed string b"user_vault" (processor.rs). -/
def userVaultSeed : List Nat := [117, 115, 101, 114, 95, 118, 97, 117, 108, 116]

/-- ASCII bytes of the seed string b"vault" (processor.rs). -/
def vaultSeed : List Nat := [118, 97, 117, 108, 116]

/-- The `solana_program::program_error::ProgramError` values the program
uses.  `notInitializedAccount` stands for
`ProgramError::UninitializedAccount` (returned by `Pack::unpack` on a
record whose init flag is false); `custom n` stands for
`ProgramError::Custom(n)` (e.g. SPL-token errors surfaced by the transfer
CPI). -/
inductive ProgramError where
  | missingRequiredSignature
  | accountAlreadyInitialized
  | invalidAccountData
  | invalidInstructionData
  | insufficientFunds
  | notInitializedAccount
  | custom (code : Nat)
deriving DecidableEq

/-- The `Vault` account struct (state.rs).  Field `isInitialized` is the
source's `is_initialized`.  NOTE: there is no `total_deposits` field in
the source struct. -/
structure VaultRec where
  isInitialized : Bool
  owner : List Nat
  token_mint : List Nat
  vault_token_account : List Nat
deriving DecidableEq

/-- Serialized length of `Vault`: `Vault::LEN = 1 + 32 + 32 + 32`. -/
def vaultLen : Nat := 97

/-- The `UserVault` account struct (state.rs). -/
structure UserVaultRec where
  isInitialized : Bool
  user : List Nat
  vault : List Nat
  deposited_amount : Nat
deriving DecidableEq

/-- Serialized length of `UserVault`: `UserVault::LEN = 1 + 32 + 32 + 8`. -/
def userVaultLen : Nat := 73

/-- `Vault::pack_into_slice` (state.rs): writes
`[is_initialized:1][owner:32][token_mint:32][vault_token_account:32]`. -/
def vaultPackIntoSlice (v : VaultRec) : List Nat :=
  (if v.isInitialized then 1 else 0) ::
    (v.owner ++ (v.token_mint ++ v.vault_token_account))

/-- `Vault::unpack_from_slice` (state.rs): splits the 97-byte buffer into
the four fields; the init byte is true iff nonzero. -/
def vaultUnpackFromSlice (src : List Nat) : VaultRec :=
  { isInitialized := src.getD 0 0 != 0
    owner := (src.drop 1).take 32
    token_mint := (src.drop 33).take 32
    vault_token_account := (src.drop 65).take 32 }

/-- `Vault::unpack_unchecked` (Pack trait): length must equal `Vault::LEN`,
else `InvalidAccountData`. -/
def vaultUnpackUnchecked (src : List Nat) : Except ProgramError VaultRec :=
  if src.length = vaultLen then .ok (vaultUnpackFromSlice src)
  else .error .invalidAccountData

/-- `Vault::unpack` (Pack trait): `unpack_unchecked` plus the
`is_initialized` requirement. -/
def vaultUnpack (src : List Nat) : Except ProgramError VaultRec :=
  match vaultUnpackUnchecked src with
  | .error e => .error e
  | .ok v => if v.isInitialized then .ok v else .error .notInitializedAccount

/-- `Vault::pack` (Pack trait): destination buffer must have length
`Vault::LEN`; on success the buffer holds `pack_into_slice`'s output. -/
def vaultPack (v : VaultRec) (dst : List Nat) : Except ProgramError (List Nat) :=
  if dst.length = vaultLen then .ok (vaultPackIntoSlice v)
  else .error .invalidAccountData

/-- `UserVault::pack_into_slice` (state.rs): writes
`[is_initialized:1][user:32][vault:32][deposited_amount:8 LE]`. -/
def userVaultPackIntoSlice (u : UserVaultRec) : List Nat :=
  (if u.isInitialized then 1 else 0) ::
    (u.user ++ (u.vault ++ toLEBytes8 u.deposited_amount))

/-- `UserVault::unpack_from_slice` (state.rs). -/
def userVaultUnpackFromSlice (src : List Nat) : UserVaultRec :=
  { isInitialized := src.getD 0 0 != 0
    user := (src.drop 1).take 32
    vault := (src.drop 33).take 32
    deposited_amount := fromLEBytes ((src.drop 65).take 8) }

/-- `UserVault::unpack_unchecked` (Pack trait). -/
def userVaultUnpackUnchecked (src : List Nat) : Except ProgramError UserVaultRec :=
  if src.length = userVaultLen then .ok (userVaultUnpackFromSlice src)
  else .error .invalidAccountData

/-- `UserVault::unpack` (Pack trait). -/
def userVaultUnpack (src : List Nat) : Except ProgramError UserVaultRec :=
  match userVaultUnpackUnchecked src with
  | .error e => .error e
  | .ok u => if u.isInitialized then .ok u else .error .notInitializedAccount

/-- `UserVault::pack` (Pack trait). -/
def userVaultPack (u : UserVaultRec) (dst : List Nat) : Except ProgramError (List Nat) :=
  if dst.length = userVaultLen then .ok (userVaultPackIntoSlice u)
  else .error .invalidAccountData

/-- The `VaultInstruction` enum (instruction.rs). -/
inductive VaultInstruction where
  | initVault
  | deposit (amount : Nat)
  | withdraw (amount : Nat)
deriving DecidableEq

/-- `VaultInstruction::unpack` (instruction.rs): `split_first` on the
input (None on empty); tag 0 is InitVault; tags 1 and 2 read the first 8
remaining bytes as a little-endian u64 (`rest.get(..8)` is None when fewer
than 8 bytes remain); any other tag is None. -/
def VaultInstruction.unpack (input : List Nat) : Option VaultInstruction :=
  match input with
  | [] => none
  | tag :: rest =>
    match tag with
    | 0 => some .initVault
    | 1 =>
      if 8 ≤ rest.length then some (.deposit (fromLEBytes (rest.take 8))) else none
    | 2 =>
      if 8 ≤ rest.length then some (.withdraw (fromLEBytes (rest.take 8))) else none
    | _ => none

/-- Modelled from the spec (§4.3 and §6): `[tag:u8][payload]`, tag 0 ↦
CreateVault with no payload requirement, tags 1 and 2 require at least 8
trailing bytes interpreted as the little-endian u64 of bytes 1..9, every
other tag or truncated payload is rejected, and empty input is rejected.
Used only to compare the source decoder against the spec's words. -/
def unpackSpecDecoder (input : List Nat) : Option VaultInstruction :=
  match input.head? with
  | none => none
  | some t =>
    if t = 0 then some .initVault
    else if t = 1 then
      if 9 ≤ input.length then
        some (.deposit (fromLEBytes ((input.drop 1).take 8)))
      else none
    else if t = 2 then
      if 9 ≤ input.length then
        some (.withdraw (fromLEBytes ((input.drop 1).take 8)))
      else none
    else none

/-- Outcome of `init_vault`: the error, if any, and the final contents of
the vault state slot (unchanged whenever no write happened). -/
structure InitOut where
  err : Option ProgramError
  vaultSlot : List Nat
deriving DecidableEq

/-- Outcome of `deposit_tokens` / `withdraw_tokens`: the error, if any,
and the final contents of the vault state slot and the user vault slot
(writes performed before a failing check are retained, as the source
persists them with `Pack::pack` as it goes). -/
structure VaultStepOut where
  err : Option ProgramError
  vaultSlot : List Nat
  userSlot : List Nat
deriving DecidableEq

/-- Type of the external `Pubkey::find_program_address` primitive:
seeds and program id to (derived address, bump). -/
def Fpa : Type := List (List Nat) → List Nat → List Nat × Nat

/-- `init_vault` (processor.rs): requires the creator's signature
(`MissingRequiredSignature` otherwise), loads the vault slot with
`unpack_unchecked`, rejects an already-initialized record
(`AccountAlreadyInitialized`), then writes a record with
`is_initialized = true`, `owner = initializer.key`, the supplied token
mint key and vault token account key.  The token mint, vault token
account, rent sysvar, token program and system program accounts are not
otherwise inspected.  `creatorKey` is the source's `initializer.key`. -/
def init_vault (creatorKey : List Nat) (isSigner : Bool)
    (vaultSlot tokenMintKey vaultTokenAccountKey : List Nat) : InitOut :=
  if !isSigner then ⟨some .missingRequiredSignature, vaultSlot⟩
  else
    match vaultUnpackUnchecked vaultSlot with
    | .error e => ⟨some e, vaultSlot⟩
    | .ok vaultData =>
      if vaultData.isInitialized then ⟨some .accountAlreadyInitialized, vaultSlot⟩
      else
        match vaultPack ⟨true, creatorKey, tokenMintKey, vaultTokenAccountKey⟩ vaultSlot with
        | .error e => ⟨some e, vaultSlot⟩
        | .ok newSlot => ⟨none, newSlot⟩

/-- `deposit_tokens` (processor.rs), in the source's order: signer check;
`Vault::unpack` of the vault state slot; `checked_add` of
`vault.total_deposits` and `amount` (failure mapped to
`ProgramError::InvalidInstructionData`); `Vault::pack` back into the
vault state slot; derivation of the expected user-vault PDA from seeds
[b"user_vault", depositor key, vault state key] and comparison with the
supplied user vault account key (`InvalidAccountData` on mismatch); then
either a fresh zero-balance `UserVault` when the user slot is empty or
`UserVault::unpack` of the existing one; the SPL transfer CPI;
`checked_add` on `deposited_amount`; and `UserVault::pack`.
`totalDeposits` is the in-memory value of `vault.total_deposits`, taken
as an argument because the `Vault` struct has no such field (see the
header note); the codec drops it, so `Vault::pack` persists only the four
declared fields.  The user's source token account, the vault token
account and the token program feed only the transfer CPI, whose outcome
is the `transferResult` argument. -/
def deposit_tokens (fpa : Fpa) (programId depositorKey : List Nat)
    (isSigner : Bool) (vaultStateKey vaultSlot userVaultKey userSlot : List Nat)
    (totalDeposits : Nat) (transferResult : Option ProgramError)
    (amount : Nat) : VaultStepOut :=
  if !isSigner then ⟨some .missingRequiredSignature, vaultSlot, userSlot⟩
  else
    match vaultUnpack vaultSlot with
    | .error e => ⟨some e, vaultSlot, userSlot⟩
    | .ok vault =>
      if u64Max < totalDeposits + amount then
        ⟨some .invalidInstructionData, vaultSlot, userSlot⟩
      else
        match vaultPack vault vaultSlot with
        | .error e => ⟨some e, vaultSlot, userSlot⟩
        | .ok vaultSlot2 =>
          if (fpa [userVaultSeed, depositorKey, vaultStateKey] programId).1 ≠ userVaultKey then
            ⟨some .invalidAccountData, vaultSlot2, userSlot⟩
          else
            match
              (if userSlot.length = 0 then
                .ok ⟨true, depositorKey, vaultStateKey, 0⟩
              else userVaultUnpack userSlot :
                Except ProgramError UserVaultRec) with
            | .error e => ⟨some e, vaultSlot2, userSlot⟩
            | .ok userData =>
              match transferResult with
              | some e => ⟨some e, vaultSlot2, userSlot⟩
              | none =>
                if u64Max < userData.deposited_amount + amount then
                  ⟨some .invalidInstructionData, vaultSlot2, userSlot⟩
                else
                  match
                    userVaultPack
                      { userData with
                        deposited_amount := userData.deposited_amount + amount }
                      userSlot with
                  | .error e => ⟨some e, vaultSlot2, userSlot⟩
                  | .ok userSlot2 => ⟨none, vaultSlot2, userSlot2⟩

/-- `withdraw_tokens` (processor.rs), in the source's order: signer
check; `Vault::unpack`; `checked_sub` of `vault.total_deposits` and
`amount` (`InsufficientFunds` on underflow); `Vault::pack`; the
user-vault PDA derivation and comparison (`InvalidAccountData` on
mismatch); `UserVault::unpack` (the record must exist and be
initialized); the `deposited_amount < amount` check
(`InsufficientFunds`); the subtraction and `UserVault::pack`; and last
the transfer CPI signed by the authority derived from [b"vault"].
The source binds the vault state account as `vault_state` but uses it as
`vault_state_account` (an identifier slip); both name the same account
here.  `totalDeposits` is as in `deposit_tokens`. -/
def withdraw_tokens (fpa : Fpa) (programId userKey : List Nat)
    (isSigner : Bool) (vaultStateKey vaultSlot userVaultKey userSlot : List Nat)
    (totalDeposits : Nat) (transferResult : Option ProgramError)
    (amount : Nat) : VaultStepOut :=
  if !isSigner then ⟨some .missingRequiredSignature, vaultSlot, userSlot⟩
  else
    match vaultUnpack vaultSlot with
    | .error e => ⟨some e, vaultSlot, userSlot⟩
    | .ok vault =>
      if totalDeposits < amount then
        ⟨some .insufficientFunds, vaultSlot, userSlot⟩
      else
        match vaultPack vault vaultSlot with
        | .error e => ⟨some e, vaultSlot, userSlot⟩
        | .ok vaultSlot2 =>
          if (fpa [userVaultSeed, userKey, vaultStateKey] programId).1 ≠ userVaultKey then
            ⟨some .invalidAccountData, vaultSlot2, userSlot⟩
          else
            match userVaultUnpack userSlot with
            | .error e => ⟨some e, vaultSlot2, userSlot⟩
            | .ok userVault =>
              if userVault.deposited_amount < amount then
                ⟨some .insufficientFunds, vaultSlot2, userSlot⟩
              else
                match
                  userVaultPack
                    { userVault with
                      deposited_amount := userVault.deposited_amount - amount }
                    userSlot with
                | .error e => ⟨some e, vaultSlot2, userSlot⟩
                | .ok userSlot2 =>
                  match transferResult with
                  | some e => ⟨some e, vaultSlot2, userSlot2⟩
                  | none => ⟨none, vaultSlot2, userSlot2⟩

/-- Length of the little-endian encoding is always 8 bytes. -/
theorem toLEBytes8_length (n : Nat) : (toLEBytes8 n).length = 8 := by
  simp [toLEBytes8]

/-- Decoding the 8-byte little-endian encoding recovers any `u64`. -/
theorem fromLE_toLE (n : Nat) (h : n ≤ u64Max) : fromLEBytes (toLEBytes8 n) = n := by
  have hlt : n < 2 ^ 64 := by
    have hu : u64Max = 2 ^ 64 - 1 := rfl
    omega
  simp [toLEBytes8, fromLEBytes, List.range_succ]
  omega

/-- Round-trip of the Vault codec on records with 32-byte keys. -/
theorem vault_roundtrip (v : VaultRec) (ho : v.owner.length = 32)
    (hm : v.token_mint.length = 32) (ht : v.vault_token_account.length = 32) :
    vaultUnpackFromSlice (vaultPackIntoSlice v) = v := by
  obtain ⟨i, o, m, t⟩ := v
  dsimp only at ho hm ht
  simp only [vaultPackIntoSlice, vaultUnpackFromSlice, VaultRec.mk.injEq]
  refine ⟨?_, ?_, ?_, ?_⟩
  · cases i <;> rfl
  · show (o ++ (m ++ t)).take 32 = o
    exact List.take_left' ho
  · show ((o ++ (m ++ t)).drop 32).take 32 = m
    rw [List.drop_left' ho]
    exact List.take_left' hm
  · show ((o ++ (m ++ t)).drop 64).take 32 = t
    rw [show (64 : Nat) = 32 + 32 from rfl, ← List.drop_drop,
      List.drop_left' ho, List.drop_left' hm, ← ht]
    exact List.take_length t

/-- Round-trip of the UserVault codec on records with 32-byte keys and a
`u64` amount. -/
theorem userVault_roundtrip (u : UserVaultRec) (hu : u.user.length = 32)
    (hv : u.vault.length = 32) (ha : u.deposited_amount ≤ u64Max) :
    userVaultUnpackFromSlice (userVaultPackIntoSlice u) = u := by
  obtain ⟨i, p, q, a⟩ := u
  dsimp only at hu hv ha
  simp only [userVaultPackIntoSlice, userVaultUnpackFromSlice, UserVaultRec.mk.injEq]
  refine ⟨?_, ?_, ?_, ?_⟩
  · cases i <;> rfl
  · show (p ++ (q ++ toLEBytes8 a)).take 32 = p
    exact List.take_left' hu
  · show ((p ++ (q ++ toLEBytes8 a)).drop 32).take 32 = q
    rw [List.drop_left' hu]
    exact List.take_left' hv
  · show fromLEBytes (((p ++ (q ++ toLEBytes8 a)).drop 64).take 8) = a
    rw [show (64 : Nat) = 32 + 32 from rfl, ← List.drop_drop,
      List.drop_left' hu, List.drop_left' hv, ← toLEBytes8_length a,
      List.take_length]
    exact fromLE_toLE a ha

/-- C9: for every input byte string the decoder returns Some(CreateVault)
iff the first byte is 0, Some(Deposit)/Some(Withdraw) iff the first byte
is 1/2 with at least 8 following bytes whose first 8 form the
little-endian u64 amount, and None in every other case (empty input, any
other tag, or a truncated payload) — stated as equality with the decoder
written from the spec's words. -/
theorem claim_c9 (input : List Nat) :
    VaultInstruction.unpack input = unpackSpecDecoder input := by
  cases input with
  | nil => rfl
  | cons t rest =>
    cases t with
    | zero => rfl
    | succ t =>
      cases t with
      | zero =>
        by_cases h : 8 ≤ rest.length <;>
          simp [VaultInstruction.unpack, unpackSpecDecoder, h, Nat.succ_le_succ_iff]
      | succ t =>
        cases t with
        | zero =>
          by_cases h : 8 ≤ rest.length <;>
            simp [VaultInstruction.unpack, unpackSpecDecoder, h, Nat.succ_le_succ_iff]
        | succ t => rfl

/-- C10: for tags 1 and 2 the decoder reads only the first 8 payload
bytes — appending any extra bytes after them changes nothing — and tag 0
decodes to CreateVault regardless of how many bytes follow. -/
theorem claim_c10 :
    (∀ rest : List Nat, VaultInstruction.unpack (0 :: rest) = some .initVault) ∧
    (∀ rest : List Nat, 8 ≤ rest.length →
      VaultInstruction.unpack (1 :: rest)
          = some (.deposit (fromLEBytes (rest.take 8))) ∧
      VaultInstruction.unpack (2 :: rest)
          = some (.withdraw (fromLEBytes (rest.take 8)))) ∧
    (∀ rest extra : List Nat, 8 ≤ rest.length →
      VaultInstruction.unpack (1 :: (rest.take 8 ++ extra))
          = VaultInstruction.unpack (1 :: rest) ∧
      VaultInstruction.unpack (2 :: (rest.take 8 ++ extra))
          = VaultInstruction.unpack (2 :: rest)) := by
  have htake : ∀ (rest : List Nat), 8 ≤ rest.length → (rest.take 8).length = 8 := by
    intro rest h
    simp [List.length_take]
    omega
  refine ⟨fun rest => rfl, fun rest h => ?_, fun rest extra h => ?_⟩
  · constructor <;> simp [VaultInstruction.unpack, h]
  · have hlen : 8 ≤ (rest.take 8 ++ extra).length := by
      simp [List.length_append, htake rest h]
    have heq : (rest.take 8 ++ extra).take 8 = rest.take 8 :=
      List.take_left' (htake rest h)
    constructor <;>
      simp [VaultInstruction.unpack, h, hlen, heq, List.take_take]

/-- Witness for C10 at concrete inputs: trailing bytes after the tag (for
tag 0) and after the 8 amount bytes (for tag 1) are ignored. -/
theorem claim_c10_witness :
    VaultInstruction.unpack (0 :: [9]) = some .initVault ∧
    (8 ≤ ([2, 0, 0, 0, 0, 0, 0, 0] : List Nat).length ∧
      VaultInstruction.unpack (1 :: [2, 0, 0, 0, 0, 0, 0, 0])
        = some (.deposit (fromLEBytes (([2, 0, 0, 0, 0, 0, 0, 0] : List Nat).take 8)))) ∧
    VaultInstruction.unpack (1 :: (([2, 0, 0, 0, 0, 0, 0, 0] : List Nat).take 8 ++ [7]))
      = VaultInstruction.unpack (1 :: [2, 0, 0, 0, 0, 0, 0, 0]) :=
  ⟨claim_c10.1 [9],
   ⟨by decide, (claim_c10.2.1 [2, 0, 0, 0, 0, 0, 0, 0] (by decide)).1⟩,
   (claim_c10.2.2 [2, 0, 0, 0, 0, 0, 0, 0] [7] (by decide)).1⟩

/-- Concrete 32-byte key used in witnesses. -/
def key1 : List Nat := List.replicate 32 1

/-- Concrete 32-byte key used in witnesses. -/
def key2 : List Nat := List.replicate 32 2

/-- Concrete 32-byte key used in witnesses. -/
def key3 : List Nat := List.replicate 32 3

/-- Concrete 32-byte key used in witnesses. -/
def key4 : List Nat := List.replicate 32 4

/-- Concrete 32-byte key used in witnesses. -/
def key5 : List Nat := List.replicate 32 5

/-- Concrete 32-byte key used in witnesses. -/
def key6 : List Nat := List.replicate 32 6

/-- Concrete 32-byte key used in witnesses (as a program id). -/
def key7 : List Nat := List.replicate 32 7

/-- Concrete 32-byte key used in witnesses. -/
def key8 : List Nat := List.replicate 32 8

/-- Concrete 32-byte key used in witnesses. -/
def key9 : List Nat := List.replicate 32 9

/-- Concrete derivation primitive for witnesses: every derivation yields
address `key9` with bump 3. -/
def fpaK9 : Fpa := fun _ _ => (key9, 3)

/-- Canonically encoded initialized vault record with owner `key1`,
token mint `key2`, vault token account `key3`. -/
def cVaultSlotA : List Nat := vaultPackIntoSlice ⟨true, key1, key2, key3⟩

/-- A 97-byte vault slot whose init byte is 2: still decodes as
initialized, but is not in canonical form. -/
def cVaultSlotB : List Nat := 2 :: (key1 ++ (key2 ++ key3))

/-- Encoded initialized user-vault record for user `key4` under vault
state key `key5` with zero balance. -/
def cUserSlot0 : List Nat := userVaultPackIntoSlice ⟨true, key4, key5, 0⟩

/-- Encoded initialized user-vault record for user `key4` under vault
state key `key5` with balance 100. -/
def cUserSlot100 : List Nat := userVaultPackIntoSlice ⟨true, key4, key5, 100⟩

/-- C2: the persisted Vault record is exactly
`[is_initialized:1][owner:32][token_mint:32][vault_token_account:32]`
(97 bytes, every region one of the four declared fields, decoding reads
back exactly those fields), so no total-deposits value is representable
in, or recoverable from, a persisted Vault record. -/
theorem claim_c2 (v : VaultRec) (ho : v.owner.length = 32)
    (hm : v.token_mint.length = 32) (ht : v.vault_token_account.length = 32) :
    (vaultPackIntoSlice v).length = 97 ∧
    (vaultPackIntoSlice v).take 1 = [if v.isInitialized then 1 else 0] ∧
    ((vaultPackIntoSlice v).drop 1).take 32 = v.owner ∧
    ((vaultPackIntoSlice v).drop 33).take 32 = v.token_mint ∧
    ((vaultPackIntoSlice v).drop 65).take 32 = v.vault_token_account ∧
    vaultUnpackFromSlice (vaultPackIntoSlice v) = v := by
  have hr := vault_roundtrip v ho hm ht
  refine ⟨?_, ?_, ?_, ?_, ?_, hr⟩
  · simp [vaultPackIntoSlice, ho, hm, ht]
  · rfl
  · exact congrArg VaultRec.owner hr
  · exact congrArg VaultRec.token_mint hr
  · exact congrArg VaultRec.vault_token_account hr

/-- Witness for C2 at a concrete record with 32-byte keys. -/
theorem claim_c2_witness :
    key1.length = 32 ∧ key2.length = 32 ∧ key3.length = 32 ∧
    ((vaultPackIntoSlice ⟨true, key1, key2, key3⟩).length = 97 ∧
      (vaultPackIntoSlice ⟨true, key1, key2, key3⟩).take 1
        = [if (true : Bool) then 1 else 0] ∧
      ((vaultPackIntoSlice ⟨true, key1, key2, key3⟩).drop 1).take 32 = key1 ∧
      ((vaultPackIntoSlice ⟨true, key1, key2, key3⟩).drop 33).take 32 = key2 ∧
      ((vaultPackIntoSlice ⟨true, key1, key2, key3⟩).drop 65).take 32 = key3 ∧
      vaultUnpackFromSlice (vaultPackIntoSlice ⟨true, key1, key2, key3⟩)
        = ⟨true, key1, key2, key3⟩) :=
  ⟨by decide, by decide, by decide,
   claim_c2 ⟨true, key1, key2, key3⟩ (by decide) (by decide) (by decide)⟩

/-- C8: decoding the encoding of any valid Vault record and any valid
UserVault record yields the record back (32-byte keys, u64 amount). -/
theorem claim_c8 :
    (∀ v : VaultRec, v.owner.length = 32 → v.token_mint.length = 32 →
      v.vault_token_account.length = 32 →
      vaultUnpackFromSlice (vaultPackIntoSlice v) = v) ∧
    (∀ u : UserVaultRec, u.user.length = 32 → u.vault.length = 32 →
      u.deposited_amount ≤ u64Max →
      userVaultUnpackFromSlice (userVaultPackIntoSlice u) = u) :=
  ⟨vault_roundtrip, userVault_roundtrip⟩

/-- Witness for C8 at concrete records, including both boundary amounts
0 and u64::MAX. -/
theorem claim_c8_witness :
    vaultUnpackFromSlice (vaultPackIntoSlice ⟨false, key1, key2, key3⟩)
      = ⟨false, key1, key2, key3⟩ ∧
    userVaultUnpackFromSlice (userVaultPackIntoSlice ⟨true, key4, key5, 0⟩)
      = ⟨true, key4, key5, 0⟩ ∧
    userVaultUnpackFromSlice (userVaultPackIntoSlice ⟨true, key4, key5, u64Max⟩)
      = ⟨true, key4, key5, u64Max⟩ :=
  ⟨claim_c8.1 ⟨false, key1, key2, key3⟩ (by decide) (by decide) (by decide),
   claim_c8.2 ⟨true, key4, key5, 0⟩ (by decide) (by decide) (Nat.zero_le _),
   claim_c8.2 ⟨true, key4, key5, u64Max⟩ (by decide) (by decide) (Nat.le_refl _)⟩

/-- C7: CreateVault on an already-initialized 97-byte slot fails with
AccountAlreadyInitialized and leaves the slot byte-identical, and
CreateVault without the requester's signature fails with
MissingRequiredSignature; in both cases no write occurs. -/
theorem claim_c7 :
    (∀ k slot m t : List Nat, slot.length = 97 →
      (vaultUnpackFromSlice slot).isInitialized = true →
      init_vault k true slot m t = ⟨some .accountAlreadyInitialized, slot⟩) ∧
    (∀ k slot m t : List Nat,
      init_vault k false slot m t = ⟨some .missingRequiredSignature, slot⟩) := by
  refine ⟨fun k slot m t hs hinit => ?_, fun k slot m t => rfl⟩
  simp [init_vault, vaultUnpackUnchecked, vaultLen, hs, hinit]

/-- Witness for C7: re-running CreateVault on the non-canonical but
initialized slot `cVaultSlotB` fails and leaves it untouched, and an
unsigned CreateVault fails. -/
theorem claim_c7_witness :
    (cVaultSlotB.length = 97 ∧
      (vaultUnpackFromSlice cVaultSlotB).isInitialized = true ∧
      init_vault key4 true cVaultSlotB key5 key6
        = ⟨some .accountAlreadyInitialized, cVaultSlotB⟩) ∧
    init_vault key4 false cVaultSlotB key5 key6
      = ⟨some .missingRequiredSignature, cVaultSlotB⟩ :=
  ⟨⟨by decide, by decide,
    claim_c7.1 key4 cVaultSlotB key5 key6 (by decide) (by decide)⟩,
   claim_c7.2 key4 cVaultSlotB key5 key6⟩

/-- C4: a Deposit whose amount would push the in-memory total past
u64::MAX fails at the `checked_add` (the source maps the overflow to
`ProgramError::InvalidInstructionData`, the spec's name for this failure
is ArithmeticOverflow) before any write, leaving both the vault slot and
the user slot unchanged. -/
theorem claim_c4 (fpa : Fpa) (pid dk vk uvk vaultSlot userSlot : List Nat)
    (total : Nat) (tr : Option ProgramError) (amount : Nat)
    (hs : vaultSlot.length = 97)
    (hinit : (vaultUnpackFromSlice vaultSlot).isInitialized = true)
    (hov : u64Max < total + amount) :
    deposit_tokens fpa pid dk true vk vaultSlot uvk userSlot total tr amount
      = ⟨some .invalidInstructionData, vaultSlot, userSlot⟩ := by
  simp [deposit_tokens, vaultUnpack, vaultUnpackUnchecked, vaultLen, hs, hinit, hov]

/-- Witness for C4: depositing 1 when the in-memory total is already
u64::MAX fails with the overflow error and changes nothing. -/
theorem claim_c4_witness :
    cVaultSlotA.length = 97 ∧
    (vaultUnpackFromSlice cVaultSlotA).isInitialized = true ∧
    u64Max < u64Max + 1 ∧
    deposit_tokens fpaK9 key7 key4 true key5 cVaultSlotA key9 cUserSlot0 u64Max none 1
      = ⟨some .invalidInstructionData, cVaultSlotA, cUserSlot0⟩ :=
  ⟨by decide, by decide, Nat.lt_succ_self _,
   claim_c4 fpaK9 key7 key4 key5 key9 cVaultSlotA cUserSlot0 u64Max none 1
     (by decide) (by decide) (Nat.lt_succ_self _)⟩

/-- C5: a Withdraw with amount exceeding the in-memory vault total fails
with InsufficientFunds at the `checked_sub`, before any write, leaving
both slots unchanged; and a Withdraw with amount exceeding the user's
`deposited_amount` fails with InsufficientFunds at the user-level check,
by which point the vault record has already been re-serialized into its
slot (the source's `Vault::pack` ran right after the in-memory total was
decremented; the codec persists only the four declared fields). -/
theorem claim_c5 :
    (∀ (fpa : Fpa) (pid uk vk uvk vaultSlot userSlot : List Nat)
        (total : Nat) (tr : Option ProgramError) (amount : Nat),
      vaultSlot.length = 97 →
      (vaultUnpackFromSlice vaultSlot).isInitialized = true →
      total < amount →
      withdraw_tokens fpa pid uk true vk vaultSlot uvk userSlot total tr amount
        = ⟨some .insufficientFunds, vaultSlot, userSlot⟩) ∧
    (∀ (fpa : Fpa) (pid uk vk uvk vaultSlot userSlot : List Nat)
        (total : Nat) (tr : Option ProgramError) (amount : Nat),
      vaultSlot.length = 97 →
      (vaultUnpackFromSlice vaultSlot).isInitialized = true →
      amount ≤ total →
      (fpa [userVaultSeed, uk, vk] pid).1 = uvk →
      userSlot.length = 73 →
      (userVaultUnpackFromSlice userSlot).isInitialized = true →
      (userVaultUnpackFromSlice userSlot).deposited_amount < amount →
      withdraw_tokens fpa pid uk true vk vaultSlot uvk userSlot total tr amount
        = ⟨some .insufficientFunds,
           vaultPackIntoSlice (vaultUnpackFromSlice vaultSlot), userSlot⟩) := by
  constructor
  · intro fpa pid uk vk uvk vaultSlot userSlot total tr amount hs hinit hlt
    simp [withdraw_tokens, vaultUnpack, vaultUnpackUnchecked, vaultLen, hs, hinit, hlt]
  · intro fpa pid uk vk uvk vaultSlot userSlot total tr amount hs hinit hle hpda hus husinit hua
    simp [withdraw_tokens, vaultUnpack, vaultUnpackUnchecked, vaultLen, hs, hinit,
      Nat.not_lt.mpr hle, vaultPack, hpda, userVaultUnpack, userVaultUnpackUnchecked,
      userVaultLen, hus, husinit, hua]

/-- Witness for C5: withdrawing 1 against an in-memory total of 0 fails
with no change, and withdrawing 6 with total 10 but a user balance of 0
fails after the vault slot was re-serialized. -/
theorem claim_c5_witness :
    (0 < 1 ∧
      withdraw_tokens fpaK9 key7 key4 true key5 cVaultSlotA key9 cUserSlot0 0 none 1
        = ⟨some .insufficientFunds, cVaultSlotA, cUserSlot0⟩) ∧
    ((userVaultUnpackFromSlice cUserSlot0).deposited_amount < 6 ∧
      withdraw_tokens fpaK9 key7 key4 true key5 cVaultSlotA key9 cUserSlot0 10 none 6
        = ⟨some .insufficientFunds,
           vaultPackIntoSlice (vaultUnpackFromSlice cVaultSlotA), cUserSlot0⟩) :=
  ⟨⟨Nat.zero_lt_one,
    claim_c5.1 fpaK9 key7 key4 key5 key9 cVaultSlotA cUserSlot0 0 none 1
      (by decide) (by decide) Nat.zero_lt_one⟩,
   ⟨by decide,
    claim_c5.2 fpaK9 key7 key4 key5 key9 cVaultSlotA cUserSlot0 10 none 6
      (by decide) (by decide) (by decide) (by decide) (by decide) (by decide)
      (by decide)⟩⟩

/-- C3 counterexample: with the supplied user-vault key `key8` different
from the derived address `key9`, (a) a Deposit does fail with the
address-mismatch error, but the vault slot — here the initialized,
non-canonical `cVaultSlotB` — has already been rewritten before the
check (so a persisted record DID change on this failure), and (b) a
Withdraw of 1 with in-memory total 0 fails with InsufficientFunds, not
the address error, so the address failure is not independent of the
amount.  This refutes the claim as stated. -/
theorem claim_c3_counterexample :
    (deposit_tokens fpaK9 key7 key4 true key5 cVaultSlotB key8 cUserSlot0 0 none 5).err
      = some .invalidAccountData ∧
    (deposit_tokens fpaK9 key7 key4 true key5 cVaultSlotB key8 cUserSlot0 0 none 5).vaultSlot
      ≠ cVaultSlotB ∧
    (withdraw_tokens fpaK9 key7 key4 true key5 cVaultSlotB key8 cUserSlot0 0 none 1).err
      = some .insufficientFunds := by
  refine ⟨by decide, by decide, by decide⟩

/-- C3 amended: for every Deposit (with a non-overflowing amount) and
every Withdraw with amount at most the in-memory vault total, a supplied
user-vault key different from derive("user_vault", requester, vault key)
makes the operation fail with `ProgramError::InvalidAccountData` (the
code's value for the spec's InvalidAccountAddress), with the user slot
untouched; but the check runs only after the vault record has been
re-serialized, so the vault slot already holds the canonical re-encoding
of its record (a change whenever it was not already canonical). -/
theorem claim_c3 :
    (∀ (fpa : Fpa) (pid dk vk uvk vaultSlot userSlot : List Nat)
        (total : Nat) (tr : Option ProgramError) (amount : Nat),
      vaultSlot.length = 97 →
      (vaultUnpackFromSlice vaultSlot).isInitialized = true →
      total + amount ≤ u64Max →
      (fpa [userVaultSeed, dk, vk] pid).1 ≠ uvk →
      deposit_tokens fpa pid dk true vk vaultSlot uvk userSlot total tr amount
        = ⟨some .invalidAccountData,
           vaultPackIntoSlice (vaultUnpackFromSlice vaultSlot), userSlot⟩) ∧
    (∀ (fpa : Fpa) (pid uk vk uvk vaultSlot userSlot : List Nat)
        (total : Nat) (tr : Option ProgramError) (amount : Nat),
      vaultSlot.length = 97 →
      (vaultUnpackFromSlice vaultSlot).isInitialized = true →
      amount ≤ total →
      (fpa [userVaultSeed, uk, vk] pid).1 ≠ uvk →
      withdraw_tokens fpa pid uk true vk vaultSlot uvk userSlot total tr amount
        = ⟨some .invalidAccountData,
           vaultPackIntoSlice (vaultUnpackFromSlice vaultSlot), userSlot⟩) := by
  constructor
  · intro fpa pid dk vk uvk vaultSlot userSlot total tr amount hs hinit hno hpda
    simp [deposit_tokens, vaultUnpack, vaultUnpackUnchecked, vaultLen, hs, hinit,
      Nat.not_lt.mpr hno, vaultPack, hpda]
  · intro fpa pid uk vk uvk vaultSlot userSlot total tr amount hs hinit hle hpda
    simp [withdraw_tokens, vaultUnpack, vaultUnpackUnchecked, vaultLen, hs, hinit,
      Nat.not_lt.mpr hle, vaultPack, hpda]

/-- Witness for the amended C3 at concrete inputs. -/
theorem claim_c3_witness :
    ((fpaK9 [userVaultSeed, key4, key5] key7).1 ≠ key8 ∧
      deposit_tokens fpaK9 key7 key4 true key5 cVaultSlotB key8 cUserSlot0 0 none 5
        = ⟨some .invalidAccountData,
           vaultPackIntoSlice (vaultUnpackFromSlice cVaultSlotB), cUserSlot0⟩) ∧
    withdraw_tokens fpaK9 key7 key4 true key5 cVaultSlotB key8 cUserSlot0 7 none 7
      = ⟨some .invalidAccountData,
         vaultPackIntoSlice (vaultUnpackFromSlice cVaultSlotB), cUserSlot0⟩ :=
  ⟨⟨by decide,
    claim_c3.1 fpaK9 key7 key4 key5 key8 cVaultSlotB cUserSlot0 0 none 5
      (by decide) (by decide) (by decide) (by decide)⟩,
   claim_c3.2 fpaK9 key7 key4 key5 key8 cVaultSlotB cUserSlot0 7 none 7
     (by decide) (by decide) (by decide) (by decide)⟩

/-- C1 (code bug evidence): starting from a freshly created vault, one
successful Deposit of 100 leaves the persisted vault record byte-for-byte
identical to the freshly created one, while the depositor's
`deposited_amount` becomes 100 — the 97-byte Vault record (state.rs) has
no total-deposits field for the processor's `vault.total_deposits`
arithmetic to live in, so no persisted vault total can equal the sum of
user deposits.  (In-memory total taken as 0 here; the codec drops any
such value regardless.) -/
theorem claim_c1_code_bug :
    init_vault key1 true (List.replicate 97 0) key2 key3 = ⟨none, cVaultSlotA⟩ ∧
    deposit_tokens fpaK9 key7 key4 true key5 cVaultSlotA key9 cUserSlot0 0 none 100
      = ⟨none, cVaultSlotA, cUserSlot100⟩ ∧
    userVaultUnpackFromSlice cUserSlot100 = ⟨true, key4, key5, 100⟩ ∧
    cVaultSlotA = vaultPackIntoSlice ⟨true, key1, key2, key3⟩ := by
  refine ⟨by decide, by decide, by decide, rfl⟩

/-- C6 (code bug evidence): CreateVault with a signing requester on a
fresh zeroed slot succeeds and writes exactly the 97 bytes
`[1] ++ owner ++ token_mint ++ vault_token_account` — every byte of the
written record is one of those four fields, so no `total_deposits`
value (zero or otherwise) is written anywhere. -/
theorem claim_c6_code_bug :
    init_vault key4 true (List.replicate 97 0) key5 key6
      = ⟨none, 1 :: (key4 ++ (key5 ++ key6))⟩ ∧
    (1 :: (key4 ++ (key5 ++ key6))).length = 97 ∧
    vaultUnpackFromSlice (1 :: (key4 ++ (key5 ++ key6))) = ⟨true, key4, key5, key6⟩ := by
  refine ⟨by decide, by decide, by decide⟩
